import Mathlib

/-!
Verification of the home-automation dashboard's room-view core
(device state store, live update channel, reconciliation controller,
drag handler, REST command client) as a shallow embedding of the
source JavaScript.  Coordinates and numeric values are modelled as
rationals; partial JS objects are modelled with `Option` fields.
-/

namespace HomeAutomation

/-- A device record as held by the Device State Store.  JS device objects
are partial: every field except the id may be absent (`none`). -/
structure Device where
  id : Int
  name : Option String := none
  device_type : Option String := none
  device_kind : Option String := none
  signal_type : Option String := none
  is_on : Option Bool := none
  location : Option String := none
  unit : Option String := none
  last_value : Option ℚ := none
  position_x : Option ℚ := none
  position_y : Option ℚ := none
deriving DecidableEq

/-- One field of the JS spread `{ ...d, ...u }`: the incoming field wins
when present, otherwise the existing field is retained. -/
def spreadField (old new : Option α) : Option α :=
  match new with
  | some v => some v
  | none => old

/-- The JS spread `{ ...d, ...u }` on device records (shallow merge). -/
def mergeDevice (d u : Device) : Device where
  id := u.id
  name := spreadField d.name u.name
  device_type := spreadField d.device_type u.device_type
  device_kind := spreadField d.device_kind u.device_kind
  signal_type := spreadField d.signal_type u.signal_type
  is_on := spreadField d.is_on u.is_on
  location := spreadField d.location u.location
  unit := spreadField d.unit u.unit
  last_value := spreadField d.last_value u.last_value
  position_x := spreadField d.position_x u.position_x
  position_y := spreadField d.position_y u.position_y

/-- `applyDeviceUpdate` from RoomPage: upsert one updated device into the
devices array.  `devices.some(d => d.id === u.id)` decides between the
append branch and the merge-by-map branch. -/
def applyDeviceUpdate (devices : List Device) (updatedDevice : Device) : List Device :=
  if devices.any (fun d => d.id == updatedDevice.id) then
    devices.map (fun d => if d.id = updatedDevice.id then mergeDevice d updatedDevice else d)
  else
    devices ++ [updatedDevice]

/-- The store record currently associated with an id (first match). -/
def findDevice (devices : List Device) (i : Int) : Option Device :=
  devices.find? (fun d => d.id == i)

/-- The id column of the store. -/
def storeIds (devices : List Device) : List Int :=
  devices.map (fun d => d.id)

/-- The record predicted by the spec for a sequence of same-id payloads:
the left-to-right shallow merge of all payloads over the initial record;
when the id was absent, the first payload seeds the record and the later
payloads merge into it.  (Spec-side description, compared against the
source-side fold of `applyDeviceUpdate`.) -/
def specMergedRecord (init : Option Device) (payloads : List Device) : Option Device :=
  match init, payloads with
  | some d, ps => some (ps.foldl mergeDevice d)
  | none, [] => none
  | none, p :: ps => some (ps.foldl mergeDevice p)

/-- The relevant fields of a successfully parsed live-channel JSON object:
its `type` string, its `device` field when present (truthy), and its
`devices` field when it is an array. -/
structure WsData where
  type : String
  device : Option Device := none
  devices : Option (List Device) := none
deriving DecidableEq

/-- `socket.onmessage` from RoomPage, acting on the store.  `none` models a
payload that is not valid JSON (`JSON.parse` threw): the handler logs and
leaves the store unchanged.  Otherwise the two sequential `if` statements
of the source dispatch on the `type` field. -/
def handleMessage (devices : List Device) (event : Option WsData) : List Device :=
  match event with
  | none => devices
  | some data =>
    let afterUpdate :=
      if data.type = "device_update" then
        match data.device with
        | some d => applyDeviceUpdate devices d
        | none => devices
      else devices
    if data.type = "devices_snapshot" then
      match data.devices with
      | some ds => ds
      | none => afterUpdate
    else afterUpdate

/-- `setDevices(devicesRes.data || [])` from `load`: the REST loader writes
the fetched device list into the store as-is (empty list when the body is
absent). -/
def loadedDevices (resData : Option (List Device)) : List Device :=
  resData.getD []

/-- JS `Boolean(device.is_on)`: an absent field is falsy. -/
def truthyIsOn (d : Device) : Bool :=
  d.is_on.getD false

/-- The digital-like guard of `handleToggleDevice`. -/
def isDigital (d : Device) : Bool :=
  d.signal_type == some "digital" || d.device_type == some "switch" || d.device_type == some "light"

/-- The optimistic flip of `handleToggleDevice`: every store entry with the
toggled id gets `is_on := !Boolean(device.is_on)` computed from the
`device` argument. -/
def optimisticFlip (devices : List Device) (device : Device) : List Device :=
  devices.map (fun d =>
    if d.id = device.id then { d with is_on := some (!(truthyIsOn device)) } else d)

/-- The rollback in the catch block of `handleToggleDevice`:
`{ ...d, is_on: !d.is_on }` negates the entry's CURRENT truthy `is_on`
rather than restoring a captured value. -/
def revertFlip (devices : List Device) (deviceId : Int) : List Device :=
  devices.map (fun d =>
    if d.id = deviceId then { d with is_on := some (!(truthyIsOn d)) } else d)

/-- Observable outcome of the synchronous first phase of
`handleToggleDevice`: the store after the optimistic flip, the error
banner text, and the REST command issued (device id and state string). -/
structure ToggleStart where
  store : List Device
  error : String
  command : Option (Int × String)
deriving DecidableEq

/-- The synchronous first phase of `handleToggleDevice`.  `setError("")`
runs before the digital guard; a non-digital device then returns without
touching the store or the network.  For a digital-like device the store is
optimistically flipped and `{state: "on"|"off"}` is sent. -/
def handleToggleDevice (store : List Device) (_error : String) (device : Device) : ToggleStart :=
  if isDigital device then
    { store := optimisticFlip store device
      error := ""
      command := some (device.id, if truthyIsOn device then "off" else "on") }
  else
    { store := store, error := "", command := none }

/-- Response body as carried by a failed REST call; the `detail` field is
what the UI-level fallback chains inspect. -/
structure Body where
  detail : Option String := none
  rest : String := ""
deriving DecidableEq

/-- A raw axios rejection: `response` is absent when no response was
received (network / CORS / server down). -/
structure AxiosFailure where
  response : Option (Nat × Body) := none
  message : String := ""
  url : String := ""
deriving DecidableEq

/-- The normalized rejected outcome produced by the response interceptor
in api.js. -/
inductive RejectedOutcome where
  | network_error (message : String) (url : String)
  | api_error (status : Nat) (data : Body) (url : String)
deriving DecidableEq

/-- The error branch of `api.interceptors.response`: no response means a
`network_error` with a fixed message; a server response means an
`api_error` carrying the status code and body. -/
def normalizeRejection (e : AxiosFailure) : RejectedOutcome :=
  match e.response with
  | none => RejectedOutcome.network_error "Unable to reach the server." e.url
  | some (status, data) => RejectedOutcome.api_error status data e.url

/-- The toggle error chain in RoomPage:
`err?.data?.detail || err?.response?.data?.detail || "Could not toggle device."`.
A normalized rejection has no `response` field of its own, so the middle
link is always falsy; an empty-string detail is falsy in JS and falls
through to the generic message. -/
def toggleErrorMessage (err : RejectedOutcome) : String :=
  match err with
  | RejectedOutcome.network_error _ _ => "Could not toggle device."
  | RejectedOutcome.api_error _ body _ =>
    match body.detail with
    | some s => if s = "" then "Could not toggle device." else s
    | none => "Could not toggle device."

/-- A canvas bounding rect (`getBoundingClientRect`). -/
structure Rect where
  left : ℚ
  top : ℚ
  width : ℚ
  height : ℚ
deriving DecidableEq

/-- A pointer event's client coordinates. -/
structure Pointer where
  clientX : ℚ
  clientY : ℚ
deriving DecidableEq

/-- `Math.min(100, Math.max(0, v))`. -/
def clampPercent (v : ℚ) : ℚ :=
  min 100 (max 0 v)

/-- `getPercentFromPointer` from RoomCanvas: `(0, 0)` when the container
ref is null, otherwise the clamped percentage of the pointer relative to
the bounding rect. -/
def getPercentFromPointer (rect? : Option Rect) (e : Pointer) : ℚ × ℚ :=
  match rect? with
  | none => (0, 0)
  | some rect =>
    (clampPercent (((e.clientX - rect.left) / rect.width) * 100),
     clampPercent (((e.clientY - rect.top) / rect.height) * 100))

/-- `handleDevicePositionPreview` from RoomPage: patch one device's
position fields in the store. -/
def handleDevicePositionPreview (devices : List Device) (deviceId : Int) (xPercent yPercent : ℚ) : List Device :=
  devices.map (fun d =>
    if d.id = deviceId then { d with position_x := some xPercent, position_y := some yPercent } else d)

/-- Whether an optional coordinate is inside [0,100] (an absent coordinate
imposes nothing). -/
def rangeOk (v : Option ℚ) : Bool :=
  match v with
  | none => true
  | some x => decide (0 ≤ x) && decide (x ≤ 100)

/-- Both position fields of a device are inside [0,100] when present. -/
def posInRange (d : Device) : Bool :=
  rangeOk d.position_x && rangeOk d.position_y

/-- Drag handler state: `draggingId`, `dragStartRef` and `didMoveRef` of
RoomCanvas. -/
structure DragState where
  draggingId : Option Int
  startX : ℚ
  startY : ℚ
  didMove : Bool
deriving DecidableEq

/-- Initial values of the refs: no drag, start (0,0), not moved. -/
def initialDragState : DragState :=
  { draggingId := none, startX := 0, startY := 0, didMove := false }

/-- An observable emission of the drag handler: a position preview, a
position commit, or the settings-navigation callback. -/
inductive Emit where
  | preview (deviceId : Int) (x y : ℚ)
  | commit (deviceId : Int) (x y : ℚ)
  | openSettings (deviceId : Int)
deriving DecidableEq

/-- `handlePointerDown`: enter dragging, record the pixel start, clear
`didMove`, and immediately emit one preview. -/
def handlePointerDown (rect? : Option Rect) (deviceId : Int) (e : Pointer) : DragState × List Emit :=
  let p := getPercentFromPointer rect? e
  ({ draggingId := some deviceId, startX := e.clientX, startY := e.clientY, didMove := false },
   [Emit.preview deviceId p.1 p.2])

/-- `handlePointerMove`: while dragging, mark `didMove` once the squared
pixel displacement from the drag start exceeds 9, and emit a preview at
the clamped percent position. -/
def handlePointerMove (rect? : Option Rect) (s : DragState) (e : Pointer) : DragState × List Emit :=
  match s.draggingId with
  | none => (s, [])
  | some deviceId =>
    let dx := e.clientX - s.startX
    let dy := e.clientY - s.startY
    let moved := if 9 < dx * dx + dy * dy then true else s.didMove
    let p := getPercentFromPointer rect? e
    ({ s with didMove := moved }, [Emit.preview deviceId p.1 p.2])

/-- `finishDrag` (pointer-up and pointer-leave): emit one final preview,
then the commit, then the settings callback when the pointer never moved
beyond the threshold; leave dragging.  A second call is a no-op since
`draggingId` is already cleared. -/
def finishDrag (rect? : Option Rect) (s : DragState) (e : Pointer) : DragState × List Emit :=
  match s.draggingId with
  | none => (s, [])
  | some finalId =>
    let p := getPercentFromPointer rect? e
    let base := [Emit.preview finalId p.1 p.2, Emit.commit finalId p.1 p.2]
    ({ s with draggingId := none },
     if s.didMove then base else base ++ [Emit.openSettings finalId])

/-- Run a sequence of pointer-move events through the handler, collecting
emissions in order. -/
def stepMoves (rect? : Option Rect) (s : DragState) : List Pointer → DragState × List Emit
  | [] => (s, [])
  | e :: rest =>
    let r := handlePointerMove rect? s e
    let r2 := stepMoves rect? r.1 rest
    (r2.1, r.2 ++ r2.2)

/-- One complete gesture: pointer-down on a device, a sequence of moves,
then release; the list of emissions in order. -/
def runGesture (rect? : Option Rect) (deviceId : Int) (downE : Pointer) (moves : List Pointer) (upE : Pointer) : List Emit :=
  let r0 := handlePointerDown rect? deviceId downE
  let r1 := stepMoves rect? r0.1 moves
  let r2 := finishDrag rect? r1.1 upE
  r0.2 ++ r1.2 ++ r2.2

/-- Whether one move event exceeds the 9 square-pixel click threshold
relative to the pointer-down position. -/
def moveExceeds (downE m : Pointer) : Bool :=
  decide (9 < (m.clientX - downE.clientX) * (m.clientX - downE.clientX)
      + (m.clientY - downE.clientY) * (m.clientY - downE.clientY))

/-- Number of settings-navigation callbacks among the emissions. -/
def countSettings (emits : List Emit) : Nat :=
  emits.countP (fun e => match e with | Emit.openSettings _ => true | _ => false)

/-- The position commits among the emissions, in order. -/
def commitList (emits : List Emit) : List (Int × ℚ × ℚ) :=
  emits.filterMap (fun e => match e with | Emit.commit i x y => some (i, x, y) | _ => none)

/-- Both coordinates inside [0,100]. -/
def coordsInRange (x y : ℚ) : Prop :=
  0 ≤ x ∧ x ≤ 100 ∧ 0 ≤ y ∧ y ≤ 100

/-- Every coordinate-carrying emission is inside [0,100]. -/
def emitInRange : Emit → Prop
  | Emit.preview _ x y => coordsInRange x y
  | Emit.commit _ x y => coordsInRange x y
  | Emit.openSettings _ => True

/-- The device-creation form fields of RoomPage. -/
structure CreateForm where
  newDeviceName : String
  newDeviceType : String
  newDeviceLocation : String
deriving DecidableEq

/-- The payload of the POST to /devices/ issued by `handleCreateDevice`. -/
structure CreatePayload where
  room : Int
  name : String
  device_type : String
  device_kind : String
  signal_type : String
  location : String
  is_on : Bool
deriving DecidableEq

/-- `handleCreateDevice` from RoomPage: empty name issues no request and
leaves the form as is; otherwise the simple type selection is mapped to
`device_kind`/`signal_type`, one POST payload is issued, and the form is
reset only when the request succeeded. -/
def handleCreateDevice (roomId : Int) (form : CreateForm) (succeeded : Bool) : Option CreatePayload × CreateForm :=
  if form.newDeviceName = "" then (none, form)
  else
    let payload : CreatePayload :=
      { room := roomId
        name := form.newDeviceName
        device_type := form.newDeviceType
        device_kind := if form.newDeviceType = "sensor" then "sensor" else "actuator"
        signal_type := if form.newDeviceType = "sensor" then "analog" else "digital"
        location := if form.newDeviceLocation = "" then "" else form.newDeviceLocation
        is_on := false }
    if succeeded then
      (some payload, { newDeviceName := "", newDeviceType := "light", newDeviceLocation := "" })
    else
      (some payload, form)

/-! ### Store lemmas -/

theorem mergeDevice_id (d u : Device) : (mergeDevice d u).id = u.id := rfl

theorem find?_map_merge (u : Device) (l : List Device) :
    (l.map (fun d => if d.id = u.id then mergeDevice d u else d)).find? (fun d => d.id == u.id)
      = (l.find? (fun d => d.id == u.id)).map (fun d => mergeDevice d u) := by
  induction l with
  | nil => rfl
  | cons d rest ih =>
    by_cases h : d.id = u.id
    · simp [List.find?_cons, h, mergeDevice_id]
    · simp [List.find?_cons, h, ih]

theorem findDevice_applyDeviceUpdate_self (devices : List Device) (u : Device) :
    findDevice (applyDeviceUpdate devices u) u.id
      = some ((findDevice devices u.id).elim u (fun d => mergeDevice d u)) := by
  unfold applyDeviceUpdate
  by_cases hany : devices.any (fun d => d.id == u.id) = true
  · rw [if_pos hany]
    unfold findDevice
    rw [find?_map_merge]
    rcases hfind : devices.find? (fun d => d.id == u.id) with _ | d
    · exfalso
      rw [List.find?_eq_none] at hfind
      rcases List.any_eq_true.mp hany with ⟨a, ha, hpa⟩
      exact hfind a ha hpa
    · rw [hfind]
      rfl
  · rw [if_neg hany]
    unfold findDevice
    have hnone : devices.find? (fun d => d.id == u.id) = none := by
      rw [List.find?_eq_none]
      intro a ha hpa
      exact hany (List.any_eq_true.mpr ⟨a, ha, hpa⟩)
    rw [List.find?_append, hnone]
    simp [List.find?_cons]

theorem filter_map_merge (u : Device) (l : List Device) :
    (l.map (fun d => if d.id = u.id then mergeDevice d u else d)).filter (fun d => !(d.id == u.id))
      = l.filter (fun d => !(d.id == u.id)) := by
  induction l with
  | nil => rfl
  | cons d rest ih =>
    by_cases h : d.id = u.id
    · simp [List.filter_cons, h, mergeDevice_id, ih]
    · simp [List.filter_cons, h, ih]

theorem filter_applyDeviceUpdate (devices : List Device) (u : Device) :
    (applyDeviceUpdate devices u).filter (fun d => !(d.id == u.id))
      = devices.filter (fun d => !(d.id == u.id)) := by
  unfold applyDeviceUpdate
  split
  · exact filter_map_merge u devices
  · simp [List.filter_append, List.filter_cons]

theorem fold_apply_findDevice (payloads : List Device) :
    ∀ (devices : List Device) (i : Int), (∀ p ∈ payloads, p.id = i) →
      findDevice (payloads.foldl applyDeviceUpdate devices) i
        = specMergedRecord (findDevice devices i) payloads := by
  induction payloads with
  | nil =>
    intro devices i _
    rcases h : findDevice devices i with _ | d <;> simp [specMergedRecord, h]
  | cons p ps ih =>
    intro devices i hall
    have hp : p.id = i := hall p (List.mem_cons_self p ps)
    have hps : ∀ q ∈ ps, q.id = i := fun q hq => hall q (List.mem_cons_of_mem p hq)
    rw [List.foldl_cons, ih (applyDeviceUpdate devices p) i hps]
    have h1 := findDevice_applyDeviceUpdate_self devices p
    rw [hp] at h1
    rw [h1]
    rcases h : findDevice devices i with _ | d
    · simp [specMergedRecord]
    · simp [specMergedRecord]

theorem fold_apply_filter (payloads : List Device) :
    ∀ (devices : List Device) (i : Int), (∀ p ∈ payloads, p.id = i) →
      (payloads.foldl applyDeviceUpdate devices).filter (fun d => !(d.id == i))
        = devices.filter (fun d => !(d.id == i)) := by
  induction payloads with
  | nil => intro devices i _; rfl
  | cons p ps ih =>
    intro devices i hall
    have hp : p.id = i := hall p (List.mem_cons_self p ps)
    have hps : ∀ q ∈ ps, q.id = i := fun q hq => hall q (List.mem_cons_of_mem p hq)
    rw [List.foldl_cons, ih (applyDeviceUpdate devices p) i hps]
    have h2 := filter_applyDeviceUpdate devices p
    rw [hp] at h2
    exact h2

/-- Claim C2: for every initial store and every finite sequence of upsert
calls carrying partial payloads with the same device id, the final record
for that id equals the left-to-right shallow merge of the payloads over
the initial record (the first payload is appended when the id was absent),
and records with other ids are unchanged. -/
theorem upsert_fold_shallow_merge (payloads devices : List Device) (i : Int)
    (h : ∀ p ∈ payloads, p.id = i) :
    findDevice (payloads.foldl applyDeviceUpdate devices) i
        = specMergedRecord (findDevice devices i) payloads
    ∧ (payloads.foldl applyDeviceUpdate devices).filter (fun d => !(d.id == i))
        = devices.filter (fun d => !(d.id == i)) :=
  ⟨fold_apply_findDevice payloads devices i h, fold_apply_filter payloads devices i h⟩

/-- Concrete witness for the C2 theorem: two partial payloads for id 1
folded into a store holding id 2 only. -/
theorem upsert_fold_shallow_merge_witness :
    (∀ p ∈ ([{ id := 1, name := some "lamp" }, { id := 1, is_on := some true }] : List Device), p.id = 1)
    ∧ (findDevice (([{ id := 1, name := some "lamp" }, { id := 1, is_on := some true }] : List Device).foldl applyDeviceUpdate [{ id := 2 }]) 1
        = specMergedRecord (findDevice [{ id := 2 }] 1) [{ id := 1, name := some "lamp" }, { id := 1, is_on := some true }]
      ∧ (([{ id := 1, name := some "lamp" }, { id := 1, is_on := some true }] : List Device).foldl applyDeviceUpdate [{ id := 2 }]).filter (fun d => !(d.id == 1))
        = ([{ id := 2 }] : List Device).filter (fun d => !(d.id == 1))) :=
  ⟨by decide, upsert_fold_shallow_merge _ _ 1 (by decide)⟩

/-! ### Live-channel dispatch -/

theorem handleMessage_snapshot (devices snap : List Device) (dev : Option Device) :
    handleMessage devices
        (some { type := "devices_snapshot", device := dev, devices := some snap }) = snap := by
  simp [handleMessage]

/-- Claim C3: the live-channel message handler drops a malformed payload
with the store unchanged (and, being a total function, cannot throw),
upserts the device of a device_update message, fully replaces the store
with the devices of a devices_snapshot message (discarding every id not in
the snapshot), and leaves the store unchanged for any other type. -/
theorem onmessage_dispatch (devices : List Device) :
    handleMessage devices none = devices
    ∧ (∀ (d : Device) (ds : Option (List Device)),
        handleMessage devices (some { type := "device_update", device := some d, devices := ds })
          = applyDeviceUpdate devices d)
    ∧ (∀ (dev : Option Device) (snap : List Device),
        handleMessage devices (some { type := "devices_snapshot", device := dev, devices := some snap })
          = snap)
    ∧ (∀ (t : String) (dev : Option Device) (ds : Option (List Device)),
        t ≠ "device_update" → t ≠ "devices_snapshot" →
        handleMessage devices (some { type := t, device := dev, devices := ds }) = devices) := by
  refine ⟨rfl, ?_, ?_, ?_⟩
  · intro d ds
    simp [handleMessage]
  · intro dev snap
    simp [handleMessage]
  · intro t dev ds h1 h2
    simp [handleMessage, h1, h2]

/-- Concrete witness for the C3 theorem: an unknown message type leaves a
one-device store unchanged. -/
theorem onmessage_dispatch_witness :
    handleMessage [{ id := 3 }] (some { type := "ping" }) = [{ id := 3 }] :=
  (onmessage_dispatch [{ id := 3 }]).2.2.2 "ping" none none (by decide) (by decide)

/-! ### Id uniqueness -/

theorem storeIds_map_id_preserving (devices : List Device) (f : Device → Device)
    (hf : ∀ d, (f d).id = d.id) : storeIds (devices.map f) = storeIds devices := by
  induction devices with
  | nil => rfl
  | cons d rest ih =>
    simp only [storeIds, List.map_cons, List.cons.injEq] at ih ⊢
    exact ⟨hf d, ih⟩

theorem nodup_applyDeviceUpdate (devices : List Device) (u : Device)
    (h : (storeIds devices).Nodup) : (storeIds (applyDeviceUpdate devices u)).Nodup := by
  unfold applyDeviceUpdate
  by_cases hany : devices.any (fun d => d.id == u.id) = true
  · rw [if_pos hany]
    rw [storeIds_map_id_preserving]
    · exact h
    · intro d
      by_cases hd : d.id = u.id <;> simp [hd, mergeDevice_id]
  · rw [if_neg hany]
    have hnotin : u.id ∉ storeIds devices := by
      intro hmem
      rcases List.mem_map.mp hmem with ⟨d, hd, hid⟩
      exact hany (List.any_eq_true.mpr ⟨d, hd, by simp [hid]⟩)
    simp only [storeIds, List.map_append, List.map_cons, List.map_nil]
    rw [List.nodup_append]
    exact ⟨h, List.nodup_singleton _, by
      intro a ha hb
      simp only [List.mem_singleton] at hb
      subst hb
      exact hnotin ha⟩

/-- Claim C4 (amended): upsert preserves id-uniqueness of any store, and
the per-id patch operations (optimistic flip, rollback, position preview)
preserve the id column verbatim; but a devices_snapshot message and a REST
load write their payload into the store as-is, so the store is
duplicate-free after them exactly when the payload is — there is no dedup
pass for such inputs. -/
theorem store_id_uniqueness (devices : List Device) :
    (∀ u : Device, (storeIds devices).Nodup → (storeIds (applyDeviceUpdate devices u)).Nodup)
    ∧ (∀ device : Device, storeIds (optimisticFlip devices device) = storeIds devices)
    ∧ (∀ deviceId : Int, storeIds (revertFlip devices deviceId) = storeIds devices)
    ∧ (∀ (deviceId : Int) (x y : ℚ),
        storeIds (handleDevicePositionPreview devices deviceId x y) = storeIds devices)
    ∧ (∀ (dev : Option Device) (snap : List Device),
        ((storeIds (handleMessage devices
            (some { type := "devices_snapshot", device := dev, devices := some snap }))).Nodup
          ↔ (storeIds snap).Nodup))
    ∧ (∀ resData : List Device, loadedDevices (some resData) = resData) := by
  refine ⟨fun u => nodup_applyDeviceUpdate devices u, ?_, ?_, ?_, ?_, fun _ => rfl⟩
  · intro device
    exact storeIds_map_id_preserving devices _ (fun d => by
      by_cases hd : d.id = device.id <;> simp [hd])
  · intro deviceId
    exact storeIds_map_id_preserving devices _ (fun d => by
      by_cases hd : d.id = deviceId <;> simp [hd])
  · intro deviceId x y
    exact storeIds_map_id_preserving devices _ (fun d => by
      by_cases hd : d.id = deviceId <;> simp [hd])
  · intro dev snap
    have hmsg : handleMessage devices
        (some { type := "devices_snapshot", device := dev, devices := some snap }) = snap :=
      handleMessage_snapshot devices snap dev
    rw [hmsg]

/-- Counterexample to claim C4 as stated: a devices_snapshot whose payload
repeats id 1 leaves the store with two records sharing id 1; no operation
deduplicates it. -/
theorem snapshot_duplicate_ids :
    ¬ (storeIds (handleMessage []
        (some { type := "devices_snapshot",
                devices := some [{ id := 1 }, { id := 1, name := some "b" }] }))).Nodup := by
  decide

/-- Concrete witness for the amended C4 theorem: upserting id 2 into a
duplicate-free store keeps the ids duplicate-free. -/
theorem store_id_uniqueness_witness :
    (storeIds [({ id := 1 } : Device)]).Nodup
    ∧ (storeIds (applyDeviceUpdate [{ id := 1 }] { id := 2 })).Nodup :=
  ⟨by decide, (store_id_uniqueness [{ id := 1 }]).1 { id := 2 } (by decide)⟩

/-! ### Position range -/

theorem rangeOk_spreadField (a b : Option ℚ) (ha : rangeOk a = true) (hb : rangeOk b = true) :
    rangeOk (spreadField a b) = true := by
  cases b with
  | none => simpa [spreadField] using ha
  | some v => simpa [spreadField] using hb

theorem posInRange_mergeDevice (d u : Device) (hd : posInRange d = true) (hu : posInRange u = true) :
    posInRange (mergeDevice d u) = true := by
  simp only [posInRange, Bool.and_eq_true] at hd hu ⊢
  exact ⟨rangeOk_spreadField _ _ hd.1 hu.1, rangeOk_spreadField _ _ hd.2 hu.2⟩

theorem posInRange_applyDeviceUpdate (devices : List Device) (u : Device)
    (hall : ∀ d ∈ devices, posInRange d = true) (hu : posInRange u = true) :
    ∀ d ∈ applyDeviceUpdate devices u, posInRange d = true := by
  intro d hd
  unfold applyDeviceUpdate at hd
  split at hd
  · rcases List.mem_map.mp hd with ⟨d0, hd0, hmap⟩
    by_cases h : d0.id = u.id
    · rw [if_pos h] at hmap
      rw [← hmap]
      exact posInRange_mergeDevice d0 u (hall d0 hd0) hu
    · rw [if_neg h] at hmap
      rw [← hmap]
      exact hall d0 hd0
  · rcases List.mem_append.mp hd with hmem | hmem
    · exact hall d hmem
    · rw [List.mem_singleton] at hmem
      rw [hmem]
      exact hu

theorem clampPercent_nonneg (v : ℚ) : 0 ≤ clampPercent v :=
  le_min (by norm_num) (le_max_left 0 v)

theorem clampPercent_le (v : ℚ) : clampPercent v ≤ 100 :=
  min_le_left 100 (max 0 v)

theorem getPercent_coords_in_range (rect? : Option Rect) (e : Pointer) :
    coordsInRange (getPercentFromPointer rect? e).1 (getPercentFromPointer rect? e).2 := by
  cases rect? with
  | none => exact ⟨le_refl 0, by show (0:ℚ) ≤ 100; norm_num, le_refl 0, by show (0:ℚ) ≤ 100; norm_num⟩
  | some rect =>
    exact ⟨clampPercent_nonneg _, clampPercent_le _, clampPercent_nonneg _, clampPercent_le _⟩

theorem rangeOk_of_bounds (x : ℚ) (h1 : 0 ≤ x) (h2 : x ≤ 100) : rangeOk (some x) = true := by
  simp [rangeOk, h1, h2]

/-- Claim C5 (amended): the range invariant is enforced only where the
drag handler produces the coordinates — a position preview with
drag-handler output preserves it, and an upsert whose payload is in range
preserves it — but a devices_snapshot stores its payload verbatim, so
after it the invariant holds exactly when the payload satisfies it;
out-of-range positions arriving over the channel are stored unmodified. -/
theorem position_range (devices : List Device) :
    (∀ u : Device, (∀ d ∈ devices, posInRange d = true) → posInRange u = true →
        ∀ d ∈ applyDeviceUpdate devices u, posInRange d = true)
    ∧ (∀ (dev : Option Device) (snap : List Device),
        ((∀ d ∈ handleMessage devices
            (some { type := "devices_snapshot", device := dev, devices := some snap }),
          posInRange d = true)
          ↔ (∀ d ∈ snap, posInRange d = true)))
    ∧ (∀ (deviceId : Int) (rect? : Option Rect) (e : Pointer),
        (∀ d ∈ devices, posInRange d = true) →
        ∀ d ∈ handleDevicePositionPreview devices deviceId
            (getPercentFromPointer rect? e).1 (getPercentFromPointer rect? e).2,
          posInRange d = true) := by
  refine ⟨fun u hall hu => posInRange_applyDeviceUpdate devices u hall hu, ?_, ?_⟩
  · intro dev snap
    rw [handleMessage_snapshot devices snap dev]
  · intro deviceId rect? e hall d hd
    rcases List.mem_map.mp hd with ⟨d0, hd0, hmap⟩
    by_cases h : d0.id = deviceId
    · rw [if_pos h] at hmap
      rw [← hmap]
      have hc := getPercent_coords_in_range rect? e
      simp only [posInRange, Bool.and_eq_true]
      exact ⟨rangeOk_of_bounds _ hc.1 hc.2.1, rangeOk_of_bounds _ hc.2.2.1 hc.2.2.2⟩
    · rw [if_neg h] at hmap
      rw [← hmap]
      exact hall d0 hd0

/-- Counterexample to claim C5 as stated: a device_update carrying
position_x = 150 is stored as-is, leaving a store record outside
[0,100]. -/
theorem upsert_out_of_range_position :
    ¬ (∀ d ∈ handleMessage []
          (some { type := "device_update", device := some { id := 1, position_x := some 150 } }),
        posInRange d = true) := by
  decide

/-- Concrete witness for the amended C5 theorem: an in-range upsert into an
in-range store stays in range. -/
theorem position_range_witness :
    ∀ d ∈ applyDeviceUpdate [({ id := 1, position_x := some 10 } : Device)]
        { id := 1, position_y := some 20 },
      posInRange d = true :=
  (position_range _).1 _ (by decide) (by decide)

/-! ### Drag gestures -/

theorem stepMoves_dragging (rect? : Option Rect) (deviceId : Int) (sx sy : ℚ) (b : Bool)
    (moves : List Pointer) :
    stepMoves rect? { draggingId := some deviceId, startX := sx, startY := sy, didMove := b } moves
      = ({ draggingId := some deviceId, startX := sx, startY := sy,
           didMove := b || moves.any (fun m =>
             decide (9 < (m.clientX - sx) * (m.clientX - sx) + (m.clientY - sy) * (m.clientY - sy))) },
         moves.map (fun m =>
           Emit.preview deviceId (getPercentFromPointer rect? m).1 (getPercentFromPointer rect? m).2)) := by
  induction moves generalizing b with
  | nil => simp [stepMoves]
  | cons m rest ih =>
    simp only [stepMoves, handlePointerMove, List.any_cons, List.map_cons]
    by_cases hc : 9 < (m.clientX - sx) * (m.clientX - sx) + (m.clientY - sy) * (m.clientY - sy)
    · rw [if_pos hc]
      rw [ih true]
      simp [hc]
    · rw [if_neg hc]
      rw [ih b]
      simp [hc]

theorem runGesture_emits (rect? : Option Rect) (deviceId : Int) (downE : Pointer)
    (moves : List Pointer) (upE : Pointer) :
    runGesture rect? deviceId downE moves upE
      = Emit.preview deviceId (getPercentFromPointer rect? downE).1 (getPercentFromPointer rect? downE).2
        :: (moves.map (fun m =>
              Emit.preview deviceId (getPercentFromPointer rect? m).1 (getPercentFromPointer rect? m).2)
            ++ ([Emit.preview deviceId (getPercentFromPointer rect? upE).1 (getPercentFromPointer rect? upE).2,
                 Emit.commit deviceId (getPercentFromPointer rect? upE).1 (getPercentFromPointer rect? upE).2]
                ++ if moves.any (fun m => moveExceeds downE m) then [] else [Emit.openSettings deviceId])) := by
  unfold runGesture handlePointerDown
  simp only [moveExceeds]
  rw [stepMoves_dragging]
  unfold finishDrag
  by_cases hany : moves.any (fun m =>
      decide (9 < (m.clientX - downE.clientX) * (m.clientX - downE.clientX)
        + (m.clientY - downE.clientY) * (m.clientY - downE.clientY))) = true
  · simp [hany]
  · simp [hany]

/-- Claim C6: the drag handler's percentage coordinates are always within
[0,100] — (0,0) when the container ref is null, clamped otherwise for any
pointer coordinates and any bounding box with positive width and height —
hence every position preview and position commit emitted during a gesture
carries coordinates within [0,100]. -/
theorem getPercent_bounds :
    (∀ e : Pointer, getPercentFromPointer none e = (0, 0))
    ∧ (∀ (rect : Rect) (e : Pointer), 0 < rect.width → 0 < rect.height →
        coordsInRange (getPercentFromPointer (some rect) e).1 (getPercentFromPointer (some rect) e).2)
    ∧ (∀ (rect? : Option Rect) (deviceId : Int) (downE : Pointer) (moves : List Pointer)
        (upE : Pointer),
        ∀ em ∈ runGesture rect? deviceId downE moves upE, emitInRange em) := by
  refine ⟨fun e => rfl, fun rect e _ _ => getPercent_coords_in_range (some rect) e, ?_⟩
  intro rect? deviceId downE moves upE em hm
  rw [runGesture_emits] at hm
  rcases List.mem_cons.mp hm with rfl | hm
  · exact getPercent_coords_in_range rect? downE
  rcases List.mem_append.mp hm with hm | hm
  · rcases List.mem_map.mp hm with ⟨m, _, rfl⟩
    exact getPercent_coords_in_range rect? m
  rcases List.mem_append.mp hm with hm | hm
  · rcases List.mem_cons.mp hm with rfl | hm
    · exact getPercent_coords_in_range rect? upE
    rcases List.mem_cons.mp hm with rfl | hm
    · exact getPercent_coords_in_range rect? upE
    · exact absurd hm (List.not_mem_nil em)
  · split at hm
    · exact absurd hm (List.not_mem_nil em)
    · rcases List.mem_singleton.mp hm with rfl
      trivial

/-- Concrete witness for the C6 theorem: a pointer outside a 10 by 10 box
still yields clamped coordinates. -/
theorem getPercent_bounds_witness :
    coordsInRange
      (getPercentFromPointer (some { left := 0, top := 0, width := 10, height := 10 })
        { clientX := -5, clientY := 20 }).1
      (getPercentFromPointer (some { left := 0, top := 0, width := 10, height := 10 })
        { clientX := -5, clientY := 20 }).2 :=
  getPercent_bounds.2.1 { left := 0, top := 0, width := 10, height := 10 }
    { clientX := -5, clientY := 20 } (by norm_num) (by norm_num)

/-- Claim C7 (amended): displacement is tracked only over pointer-move
events.  The gesture always emits exactly one commit, carrying the clamped
percent of the release position; when every move event stays within the 9
square-pixel threshold the settings-navigation callback fires exactly
once, and when some move event exceeds it the callback does not fire.  The
committed position is close to the drag start only when the release event
itself is close — the release position is never checked against the
threshold. -/
theorem gesture_click_vs_drag (rect? : Option Rect) (deviceId : Int) (downE : Pointer)
    (moves : List Pointer) (upE : Pointer) :
    commitList (runGesture rect? deviceId downE moves upE)
        = [(deviceId, (getPercentFromPointer rect? upE).1, (getPercentFromPointer rect? upE).2)]
    ∧ ((∀ m ∈ moves, moveExceeds downE m = false) →
        countSettings (runGesture rect? deviceId downE moves upE) = 1)
    ∧ ((∃ m ∈ moves, moveExceeds downE m = true) →
        countSettings (runGesture rect? deviceId downE moves upE) = 0) := by
  have hprev : ∀ l : List Pointer,
      countSettings (l.map (fun m =>
        Emit.preview deviceId (getPercentFromPointer rect? m).1 (getPercentFromPointer rect? m).2)) = 0 := by
    intro l
    induction l with
    | nil => rfl
    | cons p rest ih => simp [countSettings, List.countP_cons, ih]
  have hprevc : ∀ l : List Pointer,
      commitList (l.map (fun m =>
        Emit.preview deviceId (getPercentFromPointer rect? m).1 (getPercentFromPointer rect? m).2)) = [] := by
    intro l
    induction l with
    | nil => rfl
    | cons p rest ih => simp [commitList, List.filterMap_cons, ih]
  refine ⟨?_, ?_, ?_⟩
  · rw [runGesture_emits]
    by_cases hany : moves.any (fun m => moveExceeds downE m) = true <;>
      simp [hany, commitList, List.filterMap_cons, List.filterMap_append, hprevc]
  · intro hall
    have hany : moves.any (fun m => moveExceeds downE m) = false := by
      by_contra hc
      rcases List.any_eq_true.mp (Bool.of_not_eq_false hc) with ⟨m, hm, hp⟩
      exact absurd (hall m hm) (by simp [hp])
    rw [runGesture_emits]
    simp [hany, countSettings, List.countP_cons, List.countP_append, hprev]
  · intro hex
    rcases hex with ⟨m, hm, hp⟩
    have hany : moves.any (fun m => moveExceeds downE m) = true :=
      List.any_eq_true.mpr ⟨m, hm, hp⟩
    rw [runGesture_emits]
    simp [hany, countSettings, List.countP_cons, List.countP_append, hprev]

/-- Counterexample to claim C7 as stated: a gesture with no move events at
all (so its tracked displacement never exceeds the threshold) whose
release lands 50 pixels away.  The settings callback fires, yet the
committed pointer position is 50 pixels from the pointer-down position —
the claimed 3-pixel proximity of the commit is false, and so is the
reading that a gesture exceeding the threshold never fires the
callback. -/
theorem click_far_release :
    ¬ (∀ (downE upE : Pointer) (moves : List Pointer),
        (∀ m ∈ moves, moveExceeds downE m = false) →
        countSettings (runGesture (some { left := 0, top := 0, width := 100, height := 100 }) 1
            downE moves upE) = 1
        ∧ (upE.clientX - downE.clientX) * (upE.clientX - downE.clientX)
            + (upE.clientY - downE.clientY) * (upE.clientY - downE.clientY) ≤ 9) := by
  intro h
  have h2 := h { clientX := 0, clientY := 0 } { clientX := 50, clientY := 0 } [] (by simp)
  exact absurd h2.2 (by norm_num)

/-- Concrete witness for the amended C7 theorem: a two-move gesture that
stays within the threshold fires the settings callback exactly once. -/
theorem gesture_click_vs_drag_witness :
    countSettings (runGesture (some { left := 0, top := 0, width := 100, height := 100 }) 1
        { clientX := 0, clientY := 0 }
        [{ clientX := 1, clientY := 1 }, { clientX := 2, clientY := 2 }]
        { clientX := 2, clientY := 2 }) = 1 :=
  (gesture_click_vs_drag (some { left := 0, top := 0, width := 100, height := 100 }) 1
    { clientX := 0, clientY := 0 }
    [{ clientX := 1, clientY := 1 }, { clientX := 2, clientY := 2 }]
    { clientX := 2, clientY := 2 }).2.1 (by
      intro m hm
      rcases List.mem_cons.mp hm with rfl | hm
      · simp only [moveExceeds, decide_eq_false_iff_not]
        norm_num
      rcases List.mem_cons.mp hm with rfl | hm
      · simp only [moveExceeds, decide_eq_false_iff_not]
        norm_num
      · exact absurd hm (List.not_mem_nil m))

/-! ### Toggle reconciliation -/

theorem revert_optimistic_find (device : Device) (store : List Device)
    (hagree : ∀ d ∈ store, d.id = device.id → truthyIsOn d = truthyIsOn device) :
    (findDevice (revertFlip (optimisticFlip store device) device.id) device.id).map truthyIsOn
      = (findDevice store device.id).map truthyIsOn := by
  induction store with
  | nil => rfl
  | cons d rest ih =>
    have hd := hagree d (List.mem_cons_self d rest)
    have hrest : ∀ x ∈ rest, x.id = device.id → truthyIsOn x = truthyIsOn device :=
      fun x hx => hagree x (List.mem_cons_of_mem d hx)
    by_cases h : d.id = device.id
    · simp [optimisticFlip, revertFlip, findDevice, List.find?_cons, h, truthyIsOn]
      exact (hd h).symm
    · simp only [optimisticFlip, revertFlip, List.map_cons, findDevice] at ih ⊢
      rw [if_neg h]
      rw [if_neg h]
      rw [List.find?_cons, List.find?_cons]
      have hbeq : (d.id == device.id) = false := by simp [h]
      rw [hbeq]
      exact ih hrest

/-- Claim C1 (amended): for a digital-like device, the optimistic phase of
the toggle is the store flip, and — when no concurrent mutation changed
the entry's truthy `is_on` while the command was in flight — composing the
failure rollback with the optimistic flip restores the pre-toggle truthy
`is_on` for the device's id; the surfaced error string is the
server-provided detail when present and non-empty, else the generic
fallback.  (The rollback negates the CURRENT value instead of restoring
the captured one, so the interleaving-robust form of the claim fails: see
the counterexample.) -/
theorem toggle_rollback (store : List Device) (prevError : String) (device : Device)
    (hdig : isDigital device = true)
    (hagree : ∀ d ∈ store, d.id = device.id → truthyIsOn d = truthyIsOn device) :
    (handleToggleDevice store prevError device).store = optimisticFlip store device
    ∧ (findDevice (revertFlip (optimisticFlip store device) device.id) device.id).map truthyIsOn
        = (findDevice store device.id).map truthyIsOn
    ∧ (∀ (status : Nat) (body : Body) (url s : String), body.detail = some s → s ≠ "" →
        toggleErrorMessage (RejectedOutcome.api_error status body url) = s)
    ∧ (∀ (status : Nat) (body : Body) (url : String), body.detail = none →
        toggleErrorMessage (RejectedOutcome.api_error status body url) = "Could not toggle device.")
    ∧ (∀ (message url : String),
        toggleErrorMessage (RejectedOutcome.network_error message url) = "Could not toggle device.") := by
  refine ⟨by simp [handleToggleDevice, hdig], revert_optimistic_find device store hagree, ?_, ?_, ?_⟩
  · intro status body url s hdet hne
    simp [toggleErrorMessage, hdet, hne]
  · intro status body url hdet
    simp [toggleErrorMessage, hdet]
  · intro message url
    rfl

/-- Concrete witness for the amended C1 theorem: a digital device with
is_on = false; flip then rollback restores false, a non-empty detail is
surfaced verbatim. -/
theorem toggle_rollback_witness :
    (findDevice (revertFlip (optimisticFlip
        [({ id := 1, signal_type := some "digital", is_on := some false } : Device)]
        { id := 1, signal_type := some "digital", is_on := some false }) 1) 1).map truthyIsOn
      = (findDevice [({ id := 1, signal_type := some "digital", is_on := some false } : Device)] 1).map truthyIsOn
    ∧ toggleErrorMessage (RejectedOutcome.api_error 500 { detail := some "Relay offline." } "/devices/1/command/")
      = "Relay offline." :=
  ⟨(toggle_rollback [{ id := 1, signal_type := some "digital", is_on := some false }] ""
      { id := 1, signal_type := some "digital", is_on := some false } (by decide) (by decide)).2.1,
   (toggle_rollback [] "" { id := 1, signal_type := some "digital", is_on := some false }
      (by decide) (by decide)).2.2.1 500 _ "/devices/1/command/" "Relay offline." rfl (by decide)⟩

/-- Counterexample to claim C1 as stated: a live device_update landing
while the toggle command is in flight.  Device 1 starts with is_on =
false; the optimistic flip stores true; the channel writes is_on = false;
the failing command's rollback then negates the CURRENT value and stores
true — not the captured pre-toggle value false. -/
theorem toggle_rollback_interleaving :
    isDigital { id := 1, signal_type := some "digital", is_on := some false } = true
    ∧ truthyIsOn { id := 1, signal_type := some "digital", is_on := some false } = false
    ∧ (findDevice
        (revertFlip
          (handleMessage
            (optimisticFlip [{ id := 1, signal_type := some "digital", is_on := some false }]
              { id := 1, signal_type := some "digital", is_on := some false })
            (some { type := "device_update", device := some { id := 1, is_on := some false } }))
          1)
        1).map truthyIsOn = some true := by
  decide

/-- Claim C10 (amended): invoking the toggle handler on a non-digital
device leaves the store unchanged, issues no REST command and surfaces no
error — but it is not a complete no-op at the interface: `setError("")`
runs before the digital guard, so a previously displayed error string is
cleared. -/
theorem toggle_nondigital (store : List Device) (prevError : String) (device : Device)
    (h : isDigital device = false) :
    handleToggleDevice store prevError device
      = { store := store, error := "", command := none } := by
  simp [handleToggleDevice, h]

/-- Concrete witness for the amended C10 theorem: an analog sensor. -/
theorem toggle_nondigital_witness :
    handleToggleDevice [] "Boom"
        { id := 7, device_type := some "sensor", signal_type := some "analog" }
      = { store := [], error := "", command := none } :=
  toggle_nondigital [] "Boom" _ (by decide)

/-- Counterexample to claim C10 as stated: with a prior error banner
"Boom", toggling an analog sensor does not leave the interface state
untouched — the handler clears the error string. -/
theorem toggle_nondigital_not_noop :
    handleToggleDevice [] "Boom"
        { id := 7, device_type := some "sensor", signal_type := some "analog" }
      ≠ { store := [], error := "Boom", command := none } := by
  decide

/-! ### Device creation and REST error normalization -/

/-- Claim C8: submitting name "Lamp", type "light" in room 5 issues
exactly one POST payload with room 5, actuator/digital and is_on false;
type "sensor" maps to sensor/analog; an empty name issues nothing; the
form fields are reset on success and left intact on failure. -/
theorem create_device_spec :
    (∀ succeeded : Bool,
        (handleCreateDevice 5 { newDeviceName := "Lamp", newDeviceType := "light", newDeviceLocation := "" } succeeded).1
          = some { room := 5, name := "Lamp", device_type := "light", device_kind := "actuator",
                   signal_type := "digital", location := "", is_on := false })
    ∧ (∀ (roomId : Int) (form : CreateForm) (succeeded : Bool),
        form.newDeviceName ≠ "" → form.newDeviceType = "sensor" →
        ∃ p, (handleCreateDevice roomId form succeeded).1 = some p
          ∧ p.device_kind = "sensor" ∧ p.signal_type = "analog")
    ∧ (∀ (roomId : Int) (form : CreateForm) (succeeded : Bool),
        form.newDeviceName = "" → handleCreateDevice roomId form succeeded = (none, form))
    ∧ (∀ (roomId : Int) (form : CreateForm), form.newDeviceName ≠ "" →
        (handleCreateDevice roomId form true).2
          = { newDeviceName := "", newDeviceType := "light", newDeviceLocation := "" })
    ∧ (∀ (roomId : Int) (form : CreateForm), form.newDeviceName ≠ "" →
        (handleCreateDevice roomId form false).2 = form) := by
  refine ⟨?_, ?_, ?_, ?_, ?_⟩
  · intro succeeded
    cases succeeded <;> rfl
  · intro roomId form succeeded hname htype
    refine ⟨{ room := roomId, name := form.newDeviceName, device_type := form.newDeviceType,
              device_kind := if form.newDeviceType = "sensor" then "sensor" else "actuator",
              signal_type := if form.newDeviceType = "sensor" then "analog" else "digital",
              location := if form.newDeviceLocation = "" then "" else form.newDeviceLocation,
              is_on := false }, ?_, ?_, ?_⟩
    · cases succeeded <;> simp [handleCreateDevice, hname]
    · simp [htype]
    · simp [htype]
  · intro roomId form succeeded hname
    simp [handleCreateDevice, hname]
  · intro roomId form hname
    simp [handleCreateDevice, hname]
  · intro roomId form hname
    simp [handleCreateDevice, hname]

/-- Concrete witness for the C8 theorem: sensor mapping, empty-name
rejection, reset on success, intact on failure. -/
theorem create_device_spec_witness :
    (handleCreateDevice 2 { newDeviceName := "T", newDeviceType := "sensor", newDeviceLocation := "attic" } true).2
      = { newDeviceName := "", newDeviceType := "light", newDeviceLocation := "" }
    ∧ handleCreateDevice 2 { newDeviceName := "", newDeviceType := "light", newDeviceLocation := "" } true
      = (none, { newDeviceName := "", newDeviceType := "light", newDeviceLocation := "" })
    ∧ (handleCreateDevice 2 { newDeviceName := "T", newDeviceType := "sensor", newDeviceLocation := "attic" } false).2
      = { newDeviceName := "T", newDeviceType := "sensor", newDeviceLocation := "attic" } :=
  ⟨create_device_spec.2.2.2.1 2 _ (by decide),
   create_device_spec.2.2.1 2 _ true rfl,
   create_device_spec.2.2.2.2 2 _ (by decide)⟩

/-- Claim C9: every failed REST request is delivered as exactly one of the
two normalized rejected shapes — network_error when no response was
received, api_error carrying the status code and the response body when
the server answered — and the total normalization function cannot let an
unnormalized failure escape. -/
theorem rest_error_normalization :
    (∀ e : AxiosFailure, e.response = none →
        normalizeRejection e = RejectedOutcome.network_error "Unable to reach the server." e.url)
    ∧ (∀ (e : AxiosFailure) (status : Nat) (body : Body), e.response = some (status, body) →
        normalizeRejection e = RejectedOutcome.api_error status body e.url)
    ∧ (∀ e : AxiosFailure,
        (∃ m u, normalizeRejection e = RejectedOutcome.network_error m u)
        ∨ (∃ s d u, normalizeRejection e = RejectedOutcome.api_error s d u)) := by
  refine ⟨?_, ?_, ?_⟩
  · intro e h
    simp [normalizeRejection, h]
  · intro e status body h
    simp [normalizeRejection, h]
  · intro e
    rcases h : e.response with _ | ⟨status, body⟩
    · exact Or.inl ⟨"Unable to reach the server.", e.url, by simp [normalizeRejection, h]⟩
    · exact Or.inr ⟨status, body, e.url, by simp [normalizeRejection, h]⟩

/-- Concrete witness for the C9 theorem: a 404 with a body is normalized
to an api_error carrying that status and body. -/
theorem rest_error_normalization_witness :
    normalizeRejection { response := some (404, { detail := some "Not found." }), url := "/devices/9/" }
      = RejectedOutcome.api_error 404 { detail := some "Not found." } "/devices/9/" :=
  rest_error_normalization.2.1 _ 404 _ rfl

end HomeAutomation
